import Mathlib

/-!
A shallow embedding of the LiveCaption relay service
(`relay_service/relay_main.py` together with `relay_service/config.py`),
with theorems about its bounded audio queue, format negotiation, ffmpeg
ingest supervision, ASR session lifecycle, receiver de-duplication, and
the graceful-stop handshake.

Modelling conventions:
* audio chunks are opaque byte sequences, modelled as `List Nat`;
* wall-clock instants are modelled as rationals (seconds);
* Python float arithmetic is idealized as exact rational arithmetic, so
  `int(sample_rate * 2 * (chunk_ms / 1000))` becomes natural floor
  division by 1000;
* JSON values consulted only for Python truthiness are modelled by
  `JsonVal`, where containers are abstracted to their size (the source
  only ever applies `bool(...)` to them);
* logging calls are modelled as pure outputs (a `Bool`, or a field of a
  result record) and broadcasts as elements of explicit output lists.
-/

namespace LiveCaption

/-- An opaque audio chunk (a byte string). -/
abbrev Chunk := List Nat

/-! ### Bounded audio queue (`AudioQueue`, relay_main.py lines 77-93) -/

/-- The mutable state of `AudioQueue`: the buffered chunks (FIFO, head is
oldest) and the `_dropped` counter. -/
structure AudioQueueSt where
  queue : List Chunk
  dropped : Nat
deriving Repr, DecidableEq

/-- Method `AudioQueue.put` (lines 84-90): `put_nowait`; on `QueueFull`
(`maxsize > 0` and the queue already holds `maxsize` chunks) increment
`_dropped` and warn when `_dropped % 50 == 1`.  The returned `Bool` is
whether the warning was logged.  The call never suspends and never
raises. -/
def AudioQueue.put (maxChunks : Nat) (s : AudioQueueSt) (c : Chunk) :
    AudioQueueSt × Bool :=
  if 0 < maxChunks ∧ maxChunks ≤ s.queue.length then
    ({ s with dropped := s.dropped + 1 }, (s.dropped + 1) % 50 == 1)
  else
    ({ s with queue := s.queue ++ [c] }, false)

/-- The default `max_chunks` of `AudioQueue.__init__` (line 80), used by
`create_app` (line 591). -/
def defaultMaxChunks : Nat := 100

/-- Function `clear_audio_queue` (lines 194-200): `get_nowait` until `QueueEmpty`. -/
def clear_audio_queue (s : AudioQueueSt) : AudioQueueSt :=
  { s with queue := [] }

/-! ### Format controller (`FormatController`, relay_main.py lines 96-114) -/

/-- The state of `FormatController`: the latched `_format` string and the
`_event` flag. -/
structure FormatCtrl where
  format : String
  event : Bool
deriving Repr, DecidableEq

/-- Constructor `FormatController.__init__` (lines 99-102): store the default format
and set the event. -/
def FormatController.init (defaultFormat : String) : FormatCtrl :=
  ⟨defaultFormat, true⟩

/-- Method `FormatController.set` (lines 108-110). -/
def FormatController.set (_fc : FormatCtrl) (fmt : String) : FormatCtrl :=
  ⟨fmt, true⟩

/-- Property `FormatController.current` (lines 104-106). -/
def FormatController.current (fc : FormatCtrl) : String :=
  fc.format

/-- Method `FormatController.wait_for_format` (lines 112-114): await `_event`,
then return `_format`.  `none` models blocking forever (the event unset);
the event is set by the constructor and by `set` and is never cleared. -/
def wait_for_format (fc : FormatCtrl) : Option String :=
  if fc.event then some fc.format else none

/-! ### JSON values and Python truthiness (for `useAudioWorklet`) -/

/-- A JSON value as far as the relay consults it.  The only operation the
source applies to the `useAudioWorklet` value is Python `bool(...)`, so
containers are abstracted to their size. -/
inductive JsonVal
  | null
  | bool (b : Bool)
  | num (q : ℚ)
  | str (s : String)
  | arr (size : Nat)
  | obj (size : Nat)
deriving Repr, DecidableEq

/-- Python truthiness of a JSON value (`bool(x)`). -/
def pyTruthy : JsonVal → Bool
  | .null => false
  | .bool b => b
  | .num q => q != 0
  | .str s => s != ""
  | .arr n => n != 0
  | .obj n => n != 0

/-- Lines 393-394 of `asr_link`:
`use_worklet = bool(config_payload.get("useAudioWorklet"))` followed by
`fmt = "pcm" if use_worklet else "webm"`.  `none` models an absent field
(`dict.get` returns `None`, which is falsy). -/
def configFormat (useAudioWorklet : Option JsonVal) : String :=
  let use_worklet := match useAudioWorklet with
    | some v => pyTruthy v
    | none => false
  if use_worklet then "pcm" else "webm"

/-- The outcome of receiving and parsing the first ASR message
(lines 387-391): either the `try` block raised (`RuntimeError`), or it
produced a parsed payload, of which only `useAudioWorklet` is consulted. -/
inductive ConfigMsgResult
  | parseError (e : String)
  | ok (useAudioWorklet : Option JsonVal)
deriving Repr, DecidableEq

/-- Lines 387-395 as a whole: a parse failure raises; any parsed payload
yields a format (the lines after the `try` block cannot raise). -/
def asrProcessConfig : ConfigMsgResult → Except String String
  | .parseError e => .error e
  | .ok v => .ok (configFormat v)

/-! ### Configuration (`config.py`) -/

/-- Dataclass `RelayConfig` from `config.py` (the `cert` field is omitted: no claim
consults it). -/
structure RelayConfig where
  rtmp_url : String
  asr_ws_url : String
  host : String
  port : Nat
  chunk_ms : Nat
  sample_rate : Nat
  max_backoff_seconds : Nat
  stop_timeout_seconds : Nat
  asr_audio_bitrate : String
deriving Repr, DecidableEq

/-- The dataclass defaults of `RelayConfig` (no environment overrides). -/
def defaultConfig : RelayConfig :=
  ⟨"rtmp://localhost/live", "ws://127.0.0.1:9001/asr", "0.0.0.0", 9000,
    500, 16000, 30, 10, "32k"⟩

/-! ### `build_ffmpeg_cmd` (relay_main.py lines 117-168) -/

/-- Function `build_ffmpeg_cmd`: the ffmpeg argument vector and the suggested read
size.  For `"pcm"`, raw s16le and `int(sample_rate * 2 * (chunk_ms /
1000))` bytes (exact-rational idealization of the float product, hence
natural floor division); for anything else, opus-in-webm at 48000 Hz and
8192 bytes. -/
def build_ffmpeg_cmd (cfg : RelayConfig) (fmt : String) : List String × Nat :=
  if fmt = "pcm" then
    (["ffmpeg", "-hide_banner", "-loglevel", "error", "-i", cfg.rtmp_url,
      "-vn", "-ac", "1", "-ar", toString cfg.sample_rate, "-f", "s16le",
      "pipe:1"],
     cfg.sample_rate * 2 * cfg.chunk_ms / 1000)
  else
    (["ffmpeg", "-hide_banner", "-loglevel", "error", "-i", cfg.rtmp_url,
      "-vn", "-ac", "1", "-ar", toString 48000, "-c:a", "libopus", "-b:a",
      cfg.asr_audio_bitrate, "-f", "webm", "-"],
     8192)

/-! ### Ingest supervisor (`ffmpeg_reader`, relay_main.py lines 202-307) -/

/-- The result of one spawn-failure branch of `ffmpeg_reader`
(lines 235-240): the `status=error` broadcast, the sleep duration
`min(backoff, max_backoff_seconds)` and the new backoff
`min(backoff * 2, max_backoff_seconds)`. -/
structure SpawnFailResult where
  statusState : String
  sleepSeconds : Nat
  newBackoff : Nat
deriving Repr, DecidableEq

/-- Lines 235-240 of `ffmpeg_reader`: the `except FileNotFoundError`
branch around `create_subprocess_exec`. -/
def ffmpegSpawnFailStep (cfg : RelayConfig) (backoff : Nat) : SpawnFailResult :=
  { statusState := "error"
    sleepSeconds := min backoff cfg.max_backoff_seconds
    newBackoff := min (backoff * 2) cfg.max_backoff_seconds }

/-- Line 242 of `ffmpeg_reader`: after a successful spawn `backoff = 1`
(also the initial value at line 213). -/
def ffmpegSpawnOkBackoff : Nat := 1

/-- The backoff value after `n` consecutive spawn failures since the last
successful spawn (or since startup). -/
def backoffAfterFails (cfg : RelayConfig) : Nat → Nat
  | 0 => ffmpegSpawnOkBackoff
  | n + 1 => (ffmpegSpawnFailStep cfg (backoffAfterFails cfg n)).newBackoff

/-- Line 217: `stop_timeout = max(1.0, float(cfg.stop_timeout_seconds))`. -/
def ingestStopTimeout (cfg : RelayConfig) : ℚ :=
  max 1 (cfg.stop_timeout_seconds : ℚ)

/-- The loop-local state of `ffmpeg_reader`'s read loop together with the
shared signals it consults: the spawned format `current_fmt`, the
`last_data_ts` monotonic timestamp, the `idle_signaled` flag, the
`stream_end` / `restart_ingest` / `stop` events and the audio queue. -/
structure IngestState where
  currentFmt : String
  lastData : ℚ
  idleSignaled : Bool
  streamEnd : Bool
  restart : Bool
  stop : Bool
  audio : AudioQueueSt
deriving Repr, DecidableEq

/-- What one `stdout.read` attempt of the read loop observed: a 1-second
poll timeout (at monotonic instant `now`), end of stream (empty read), or
a chunk of data. -/
inductive ReadEvent
  | timeout (now : ℚ)
  | eof
  | data (c : Chunk) (now : ℚ)
deriving Repr, DecidableEq

/-- How one iteration of the read loop ends. -/
inductive InnerOutcome
  /-- the `while not stop_event.is_set()` condition is false -/
  | exitLoop
  /-- outcome of `break`: leave the read loop and respawn via the outer loop -/
  | respawn
  /-- outcome of `raise RuntimeError("format change")` (line 256), caught by the
  generic handler; the `finally` clause kills the process and the outer
  loop respawns -/
  | formatChange
  /-- fall through to the next read -/
  | continueInner
deriving Repr, DecidableEq

/-- One iteration of `ffmpeg_reader`'s read loop (lines 249-292), given
the format controller's current token `ctrlFmt` and the read event. -/
def ffmpegInnerStep (cfg : RelayConfig) (ctrlFmt : String) (st : IngestState)
    (ev : ReadEvent) : IngestState × InnerOutcome :=
  if st.stop then (st, .exitLoop)
  else if st.restart then ({ st with restart := false }, .respawn)
  else if ctrlFmt ≠ st.currentFmt then (st, .formatChange)
  else match ev with
    | .timeout now =>
      if st.stop then (st, .respawn)
      else if now - st.lastData ≥ ingestStopTimeout cfg ∧ st.idleSignaled = false then
        ({ st with streamEnd := true, idleSignaled := true }, .respawn)
      else (st, .continueInner)
    | .eof =>
      if st.stop then (st, .respawn)
      else ({ st with streamEnd := true }, .respawn)
    | .data c now =>
      ({ st with lastData := now, streamEnd := false, idleSignaled := false,
                 audio := (AudioQueue.put defaultMaxChunks st.audio c).1 },
       .continueInner)

/-- The `finally` clause of the read loop (lines 302-305): the process is
killed exactly when it is still alive (`returncode is None`). -/
def ffmpegLoopExitKills (processAlive : Bool) : Bool := processAlive

/-- The respawn performed by the next outer-loop iteration (lines
222-227): `fmt = await fmt_controller.wait_for_format()` followed by
`build_ffmpeg_cmd(cfg, fmt)`.  `none` models `wait_for_format` blocking
(the event unset, which never happens). -/
def ffmpegRespawn (cfg : RelayConfig) (fc : FormatCtrl) :
    Option (List String × Nat) :=
  (wait_for_format fc).map (build_ffmpeg_cmd cfg)

/-! ### Shared mutable state and the operations that touch it

`relay_main.py` shares exactly these pieces of mutable state between its
long-lived tasks: the audio queue, the format controller, and the three
events `stop_event`, `stream_end_event`, `restart_ingest_event`
(`create_app`, lines 590-595).  `RelayOp` enumerates every operation in
the source that mutates any of them, with the source locations noted. -/

/-- The shared mutable state created by `create_app` (lines 590-595). -/
structure RelayState where
  audio : AudioQueueSt
  fmtCtrl : FormatCtrl
  stop : Bool
  streamEnd : Bool
  restart : Bool
deriving Repr, DecidableEq

/-- Every state-mutating operation of the source:
`putChunk` (line 289), `getChunk` (lines 366 and 433), `drainQueue`
(`clear_audio_queue`, called at lines 551 and 566), `configReceived`
(lines 393-395, the sole `FormatController.set` call site),
`setStop` (line 629), `setStreamEnd` (lines 270 and 281),
`clearStreamEnd` (line 287), `setRestart` (line 568),
`clearRestart` (line 251). -/
inductive RelayOp
  | putChunk (c : Chunk)
  | getChunk
  | drainQueue
  | configReceived (useAudioWorklet : Option JsonVal)
  | setStop
  | setStreamEnd
  | clearStreamEnd
  | setRestart
  | clearRestart
deriving Repr, DecidableEq

/-- The effect of each operation on the shared state. -/
def applyOp (s : RelayState) : RelayOp → RelayState
  | .putChunk c => { s with audio := (AudioQueue.put defaultMaxChunks s.audio c).1 }
  | .getChunk => { s with audio := { s.audio with queue := s.audio.queue.tail } }
  | .drainQueue => { s with audio := clear_audio_queue s.audio }
  | .configReceived v =>
      { s with fmtCtrl := FormatController.set s.fmtCtrl (configFormat v) }
  | .setStop => { s with stop := true }
  | .setStreamEnd => { s with streamEnd := true }
  | .clearStreamEnd => { s with streamEnd := false }
  | .setRestart => { s with restart := true }
  | .clearRestart => { s with restart := false }

/-- The shared state as `create_app` builds it (lines 590-595):
empty queue, `FormatController("webm")`, all events unset. -/
def relayInit : RelayState :=
  { audio := ⟨[], 0⟩, fmtCtrl := FormatController.init "webm",
    stop := false, streamEnd := false, restart := false }

/-! ### ASR session termination handling (`asr_link`, lines 543-586) -/

/-- How one ASR session (the body of the outer `while` of `asr_link`)
terminates, matching the `except` clauses at lines 543-576:
`noAudio` is `NoAudioTimeout`, `connClosed` is
`ConnectionClosedError`/`ConnectionRefusedError`, `otherExc` is the
generic `except Exception`, and `normalEnd` is the `async with` block
completing without an exception. -/
inductive SessionEnd
  | noAudio
  | connClosed
  | otherExc
  | normalEnd
deriving Repr, DecidableEq

/-- The loop-carried state of `asr_link`'s outer loop that the exception
handlers touch: `pending_chunk`, the audio queue contents, `backoff`, and
the `restart_ingest` event. -/
structure AsrLoopState where
  pendingChunk : Option Chunk
  queue : List Chunk
  backoff : Nat
  restartIngest : Bool
deriving Repr, DecidableEq

/-- The externally visible actions of one exception handler. -/
structure AsrEndActions where
  statusBroadcast : Option String
  sleepSeconds : Nat
deriving Repr, DecidableEq

/-- Lines 543-576 of `asr_link`: the per-termination handlers.
`noAudio` (546-552): reset backoff, discard the pending chunk, drain the
queue.  `connClosed` (553-571): broadcast `status=waiting`, reset
backoff, discard the pending chunk, drain the queue, set
`restart_ingest`, sleep one second.  `otherExc` (572-576): broadcast
`status=error`, sleep `min(backoff, max_backoff_seconds)`, double the
backoff up to the cap — the pending chunk and the queue are left as they
are.  `normalEnd`: no handler runs. -/
def asrHandleEnd (cfg : RelayConfig) (e : SessionEnd) (s : AsrLoopState) :
    AsrLoopState × AsrEndActions :=
  match e with
  | .noAudio =>
      ({ s with backoff := 1, pendingChunk := none, queue := [] },
       { statusBroadcast := none, sleepSeconds := 0 })
  | .connClosed =>
      ({ s with backoff := 1, pendingChunk := none, queue := [],
                restartIngest := true },
       { statusBroadcast := some "waiting", sleepSeconds := 1 })
  | .otherExc =>
      ({ s with backoff := min (s.backoff * 2) cfg.max_backoff_seconds },
       { statusBroadcast := some "error",
         sleepSeconds := min s.backoff cfg.max_backoff_seconds })
  | .normalEnd =>
      (s, { statusBroadcast := none, sleepSeconds := 0 })

/-- The first chunk the next session will send (lines 365-366 and
403-404): the retained `pending_chunk` if any, otherwise the head of the
queue (`audio_queue.get()`, which suspends on an empty queue until the
producer supplies a fresh chunk). -/
def nextSessionFirstChunk (s : AsrLoopState) : Option Chunk :=
  match s.pendingChunk with
  | some c => some c
  | none => s.queue.head?

/-! ### Graceful stop (`graceful_stop`, lines 335-357, and the session
`finally` clause, lines 577-584) -/

/-- What one `ws.recv()` inside `graceful_stop` produced: a frame that is
not JSON (`json.loads` raises, line 352-355), a JSON frame of which only
the `type` field is consulted, or an exception from `recv` itself
(connection failure, line 348-351). -/
inductive GsFrame
  | nonJson
  | jsonMsg (type? : Option String)
  | recvErr
deriving Repr, DecidableEq

/-- Why `graceful_stop` returned. -/
inductive GsReason
  | readyToStop
  | deadline
  | recvFailed
  | sendFailed
deriving Repr, DecidableEq

/-- Whether a frame is a JSON payload with `type == "ready_to_stop"`
(line 356). -/
def isReadyToStopFrame : GsFrame → Bool
  | .jsonMsg ty => ty = some "ready_to_stop"
  | _ => false

/-- The `while True` of `graceful_stop` (lines 344-357).  `deadline` is
the instant `loop.time() + 5` fixed at line 343 and `t` the current
clock.  The inbound trace is a list of (arrival instant, frame); an
exhausted list means `recv` never returns, so `wait_for` times out.
Returns how many frames were consumed and why the loop ended.  A frame
arriving after the deadline is never consumed (`wait_for` raises
`TimeoutError` first); a consumed non-`ready_to_stop` frame is simply
discarded and the loop continues at its arrival instant. -/
def gsLoop (deadline : ℚ) (t : ℚ) : List (ℚ × GsFrame) → Nat × GsReason
  | [] => (0, .deadline)
  | (a, f) :: rest =>
    if deadline - t ≤ 0 then (0, .deadline)
    else if deadline < a then (0, .deadline)
    else match f with
      | .recvErr => (0, .recvFailed)
      | .nonJson =>
          let r := gsLoop deadline a rest
          (r.1 + 1, r.2)
      | .jsonMsg ty =>
          if ty = some "ready_to_stop" then (1, .readyToStop)
          else
            let r := gsLoop deadline a rest
            (r.1 + 1, r.2)

/-- The observable result of `graceful_stop`. -/
structure GsResult where
  emptySends : Nat
  consumed : Nat
  reason : GsReason
deriving Repr, DecidableEq

/-- Function `graceful_stop` (lines 335-357): attempt exactly one empty-bytes
send (line 338); if it raises, return at once (line 339-340); otherwise
run the 5-second receive loop from instant `start`. -/
def graceful_stop (sendOk : Bool) (start : ℚ) (msgs : List (ℚ × GsFrame)) :
    GsResult :=
  if sendOk then
    let r := gsLoop (start + 5) start msgs
    { emptySends := 1, consumed := r.1, reason := r.2 }
  else
    { emptySends := 1, consumed := 0, reason := .sendFailed }

/-- The guard of the session `finally` clause (lines 579-580):
`ws is not None and not ws.closed` and
`(stop_event.is_set() or stream_started) and not ready_to_stop_seen`. -/
def gracefulStopCondition (wsOpen stopSet streamStarted readySeen : Bool) :
    Bool :=
  wsOpen && (stopSet || streamStarted) && !readySeen

/-- How many times the `finally` clause (lines 577-584) invokes
`graceful_stop` on a given session exit. -/
def sessionFinallyAttempts (wsOpen stopSet streamStarted readySeen : Bool) :
    Nat :=
  if gracefulStopCondition wsOpen stopSet streamStarted readySeen then 1 else 0

/-! ### The receiver (`receiver`, lines 447-529) -/

/-- One element of an ASR payload's `lines` array, as far as the source
consults it (`text`, `translation`, `text_translation`); `none` fields
model absent keys or `null`. -/
structure AsrLine where
  text : Option String
  translation : Option String
  text_translation : Option String
deriving Repr, DecidableEq

/-- An ASR downlink payload, restricted to the fields the source
consults.  `textField`/`partField` carry the `text`/`partial` fields of
payloads that are forwarded verbatim.  In `lines`, a `none` entry models
a non-dict element (skipped at line 489-490), and `lines = none` models
the field being absent, null, or not a list. -/
structure AsrPayload where
  type? : Option String
  status? : Option String
  lines : Option (List (Option AsrLine))
  buffer_transcription : Option String
  buffer_translation : Option String
  textField : Option String
  partField : Option Bool
deriving Repr, DecidableEq

/-- A message broadcast to the subscribers during a session (`ts`
timestamps are not modelled; no claim consults them). -/
inductive Broadcast
  /-- the call `broadcast(payload)` verbatim: the `ready_to_stop` path (line 462)
  and the `type in {"caption", "status"}` path (line 469) -/
  | asrPayload (p : AsrPayload)
  /-- the synthesized status (lines 473-482) -/
  | statusMsg (state : String) (detail : String)
  /-- the synthesized caption (lines 505-513) -/
  | caption (text : String) (partFlag : Bool)
  /-- the synthesized caption_translation (lines 521-529) -/
  | captionTr (text : String) (partFlag : Bool)
deriving Repr, DecidableEq

/-- Whether a broadcast carries `type == "caption"`. -/
def Broadcast.isCaptionType : Broadcast → Bool
  | .asrPayload p => p.type? = some "caption"
  | .caption _ _ => true
  | _ => false

/-- The `(text, partial)` pair of a broadcast (as `Option`s since a
verbatim payload may lack either field). -/
def Broadcast.captionTextPart : Broadcast → Option String × Option Bool
  | .asrPayload p => (p.textField, p.partField)
  | .caption t pf => (some t, some pf)
  | _ => (none, none)

/-- Python `x or d` for an optional string `x` (`None` and `""` are
falsy). -/
def pyOrStr (v : Option String) (d : String) : String :=
  match v with
  | some s => if s = "" then d else s
  | none => d

/-- The `for line in reversed(lines)` scan (lines 488-498): the first
non-empty stripped `text` becomes `line_text`, the first non-empty
stripped `translation or text_translation` becomes `line_translation`,
with an early `break` once both are found.  To be called on the
reversed list. -/
def scanLines : List (Option AsrLine) → String → String → String × String
  | [], lt, ltr => (lt, ltr)
  | none :: rest, lt, ltr => scanLines rest lt ltr
  | some l :: rest, lt, ltr =>
    let cand := (pyOrStr l.text "").trim
    let lt' := if cand ≠ "" ∧ lt = "" then cand else lt
    let candTr := (pyOrStr l.translation (pyOrStr l.text_translation "")).trim
    let ltr' := if candTr ≠ "" ∧ ltr = "" then candTr else ltr
    if lt' ≠ "" ∧ ltr' ≠ "" then (lt', ltr') else scanLines rest lt' ltr'

/-- Python `" ".join(part for part in (a, b) if part).strip()` (lines 500 and
516). -/
def joinParts (a b : String) : String :=
  (String.intercalate " " ([a, b].filter (fun s => s ≠ ""))).trim

/-- The per-session dedupe state of the receiver: `last_status` and
`last_caption` (nonlocals, reset at lines 384-385), `last_translation`
(local, line 449), and `ready_to_stop_seen`. -/
structure RecvState where
  lastStatus : Option String
  lastCaption : Option (String × Bool)
  lastTranslation : Option (String × Bool)
  readySeen : Bool
deriving Repr, DecidableEq

/-- The dedupe state at session start (lines 381-385 and 449). -/
def initRecvState : RecvState :=
  { lastStatus := none, lastCaption := none, lastTranslation := none,
    readySeen := false }

/-- Lines 472-482: the raw `status` field, broadcast as a synthesized
status message when truthy and different from `last_status`. -/
def statusPart (st : RecvState) (status? : Option String) :
    RecvState × List Broadcast :=
  match status? with
  | some s =>
    if s ≠ "" ∧ some s ≠ st.lastStatus then
      ({ st with lastStatus := some s }, [Broadcast.statusMsg s s])
    else (st, [])
  | none => (st, [])

/-- Lines 501-513: the synthesized caption, suppressed against
`last_caption`. -/
def captionPart (st : RecvState) (text : String) (pf : Bool) :
    RecvState × List Broadcast :=
  if text ≠ "" then
    if some (text, pf) ≠ st.lastCaption then
      ({ st with lastCaption := some (text, pf) }, [Broadcast.caption text pf])
    else (st, [])
  else (st, [])

/-- Lines 515-529: the synthesized caption_translation, suppressed
against `last_translation`. -/
def translationPart (st : RecvState) (text : String) (pf : Bool) :
    RecvState × List Broadcast :=
  if text ≠ "" then
    if some (text, pf) ≠ st.lastTranslation then
      ({ st with lastTranslation := some (text, pf) },
       [Broadcast.captionTr text pf])
    else (st, [])
  else (st, [])

/-- The outcome of processing one inbound message. -/
structure StepOut where
  st : RecvState
  outMsgs : List Broadcast
  halt : Bool
deriving Repr, DecidableEq

/-- The field-extraction path of the receiver (lines 472-529): status
extraction, then the synthesized caption, then the synthesized
translation, with the broadcasts in that order. -/
def extractPart (st : RecvState) (status? : Option String)
    (capText : String) (capPf : Bool) (trText : String) (trPf : Bool) :
    RecvState × List Broadcast :=
  let a := statusPart st status?
  let b := captionPart a.1 capText capPf
  let c := translationPart b.1 trText trPf
  (c.1, a.2 ++ b.2 ++ c.2)

/-- The body of the receiver's `async for` (lines 450-529) on one parsed
payload: the `ready_to_stop` check (457-463, `break`ing the loop), the
debug short-circuit (464-466), the verbatim forwarding of
`type in {"caption", "status"}` (468-470), then the field-extraction
path, whose caption text is `join(line_text, buffer_text)` and whose
`partial` flag is the truthiness of the stripped
`buffer_transcription` (and likewise for the translation). -/
def receiverStep (debug : Bool) (st : RecvState) (p : AsrPayload) : StepOut :=
  if p.type? = some "ready_to_stop" then
    { st := { st with readySeen := true },
      outMsgs := if debug then [] else [Broadcast.asrPayload p],
      halt := true }
  else if debug then { st := st, outMsgs := [], halt := false }
  else if p.type? = some "caption" ∨ p.type? = some "status" then
    { st := st, outMsgs := [Broadcast.asrPayload p], halt := false }
  else
    let sc := scanLines (p.lines.getD []).reverse "" ""
    let bufText := (pyOrStr p.buffer_transcription "").trim
    let bufTr := (pyOrStr p.buffer_translation "").trim
    let r := extractPart st p.status? (joinParts sc.1 bufText) (bufText != "")
      (joinParts sc.2 bufTr) (bufTr != "")
    { st := r.1, outMsgs := r.2, halt := false }

/-- The whole receiver run on a session's inbound messages
(`none` = a non-JSON message, dropped with a warning at lines 451-455),
returning the final dedupe state and the broadcasts in order. -/
def receiverRun (debug : Bool) : RecvState → List (Option AsrPayload) →
    RecvState × List Broadcast
  | st, [] => (st, [])
  | st, none :: rest => receiverRun debug st rest
  | st, some p :: rest =>
    let o := receiverStep debug st p
    if o.halt then (o.st, o.outMsgs)
    else
      let r := receiverRun debug o.st rest
      (r.1, o.outMsgs ++ r.2)

/-- The `(text, partial)` keys of the synthesized caption broadcasts, in
order. -/
def captionKeys (bs : List Broadcast) : List (String × Bool) :=
  bs.filterMap fun b => match b with
    | .caption t pf => some (t, pf)
    | _ => none

/-- The last element of a list, or the default when the list is empty
(a proof-friendly ghost helper). -/
def lastOr {α : Type} : List α → α → α
  | [], d => d
  | a :: rest, _ => lastOr rest a

/-! ### Helper lemmas -/

/-- Appending lists composes under `lastOr`. -/
theorem lastOr_append {α : Type} (l1 l2 : List α) (d : α) :
    lastOr (l1 ++ l2) d = lastOr l2 (lastOr l1 d) := by
  induction l1 generalizing d with
  | nil => rfl
  | cons a l ih => simp [lastOr, ih]

/-- Appending broadcast lists concatenates their `captionKeys`. -/
theorem captionKeys_append (l1 l2 : List Broadcast) :
    captionKeys (l1 ++ l2) = captionKeys l1 ++ captionKeys l2 := by
  simp [captionKeys]

/-- The status branch emits no synthesized caption and leaves
`last_caption` alone. -/
theorem statusPart_caption (st : RecvState) (s? : Option String) :
    captionKeys (statusPart st s?).2 = [] ∧
    (statusPart st s?).1.lastCaption = st.lastCaption := by
  cases s? with
  | none => simp [statusPart, captionKeys]
  | some s =>
    by_cases h : s ≠ "" ∧ some s ≠ st.lastStatus
    · simp [statusPart, h, captionKeys]
    · simp [statusPart, h, captionKeys]

/-- The translation branch emits no synthesized caption and leaves
`last_caption` alone. -/
theorem translationPart_caption (st : RecvState) (t : String) (pf : Bool) :
    captionKeys (translationPart st t pf).2 = [] ∧
    (translationPart st t pf).1.lastCaption = st.lastCaption := by
  by_cases h1 : t ≠ ""
  · by_cases h2 : some (t, pf) ≠ st.lastTranslation
    · simp [translationPart, h1, h2, captionKeys]
    · simp [translationPart, h1, h2, captionKeys]
  · simp [translationPart, h1, captionKeys]

/-- The caption branch either emits nothing and keeps `last_caption`, or
emits exactly one caption whose key differs from `last_caption` and
becomes the new `last_caption`. -/
theorem captionPart_caption (st : RecvState) (t : String) (pf : Bool) :
    (captionKeys (captionPart st t pf).2 = [] ∧
      (captionPart st t pf).1.lastCaption = st.lastCaption) ∨
    (captionKeys (captionPart st t pf).2 = [(t, pf)] ∧
      st.lastCaption ≠ some (t, pf) ∧
      (captionPart st t pf).1.lastCaption = some (t, pf)) := by
  by_cases h1 : t ≠ ""
  · by_cases h2 : some (t, pf) ≠ st.lastCaption
    · right
      refine ⟨by simp [captionPart, h1, h2, captionKeys], fun h => h2 h.symm,
        by simp [captionPart, h1, h2]⟩
    · left
      exact ⟨by simp [captionPart, h1, h2, captionKeys],
        by simp [captionPart, h1, h2]⟩
  · left
    exact ⟨by simp [captionPart, h1, captionKeys],
      by simp [captionPart, h1]⟩

/-- The extraction path emits at most one synthesized caption; if it
does, its key differs from `last_caption` and replaces it. -/
theorem extractPart_caption (st : RecvState) (s? : Option String)
    (capText : String) (capPf : Bool) (trText : String) (trPf : Bool) :
    (captionKeys (extractPart st s? capText capPf trText trPf).2 = [] ∧
      (extractPart st s? capText capPf trText trPf).1.lastCaption =
        st.lastCaption) ∨
    (captionKeys (extractPart st s? capText capPf trText trPf).2 =
        [(capText, capPf)] ∧
      st.lastCaption ≠ some (capText, capPf) ∧
      (extractPart st s? capText capPf trText trPf).1.lastCaption =
        some (capText, capPf)) := by
  obtain ⟨ha1, ha2⟩ := statusPart_caption st s?
  obtain ⟨hc1, hc2⟩ := translationPart_caption
    (captionPart (statusPart st s?).1 capText capPf).1 trText trPf
  rcases captionPart_caption (statusPart st s?).1 capText capPf with
    ⟨hb1, hb2⟩ | ⟨hb1, hb2, hb3⟩
  · left
    constructor
    · show captionKeys ((statusPart st s?).2 ++
        (captionPart (statusPart st s?).1 capText capPf).2 ++
        (translationPart (captionPart (statusPart st s?).1 capText capPf).1
          trText trPf).2) = []
      rw [captionKeys_append, captionKeys_append, ha1, hb1, hc1]
      rfl
    · show (translationPart (captionPart (statusPart st s?).1 capText capPf).1
        trText trPf).1.lastCaption = st.lastCaption
      rw [hc2, hb2, ha2]
  · right
    refine ⟨?_, ?_, ?_⟩
    · show captionKeys ((statusPart st s?).2 ++
        (captionPart (statusPart st s?).1 capText capPf).2 ++
        (translationPart (captionPart (statusPart st s?).1 capText capPf).1
          trText trPf).2) = [(capText, capPf)]
      rw [captionKeys_append, captionKeys_append, ha1, hb1, hc1]
      rfl
    · rw [← ha2]; exact hb2
    · show (translationPart (captionPart (statusPart st s?).1 capText capPf).1
        trText trPf).1.lastCaption = some (capText, capPf)
      rw [hc2, hb3]

/-- Per message, the receiver emits at most one synthesized caption; if
it does, its key differs from `last_caption` and replaces it. -/
theorem receiverStep_caption (debug : Bool) (st : RecvState) (p : AsrPayload) :
    (captionKeys (receiverStep debug st p).outMsgs = [] ∧
      (receiverStep debug st p).st.lastCaption = st.lastCaption) ∨
    (∃ k, captionKeys (receiverStep debug st p).outMsgs = [k] ∧
      st.lastCaption ≠ some k ∧
      (receiverStep debug st p).st.lastCaption = some k) := by
  unfold receiverStep
  split
  · left
    constructor
    · split <;> simp [captionKeys]
    · rfl
  · split
    · left; exact ⟨by simp [captionKeys], rfl⟩
    · split
      · left; exact ⟨by simp [captionKeys], rfl⟩
      · rcases extractPart_caption st p.status?
          (joinParts (scanLines (p.lines.getD []).reverse "" "").1
            ((pyOrStr p.buffer_transcription "").trim))
          ((pyOrStr p.buffer_transcription "").trim != "")
          (joinParts (scanLines (p.lines.getD []).reverse "" "").2
            ((pyOrStr p.buffer_translation "").trim))
          ((pyOrStr p.buffer_translation "").trim != "") with
          ⟨h1, h2⟩ | ⟨h1, h2, h3⟩
        · exact Or.inl ⟨h1, h2⟩
        · exact Or.inr ⟨_, h1, h2, h3⟩

/-- Session-level invariant: the `last_caption` value followed by the
keys of the synthesized captions forms a chain of distinct consecutive
values, and the final `last_caption` is the last such key. -/
theorem receiverRun_chain (debug : Bool) :
    ∀ (msgs : List (Option AsrPayload)) (st : RecvState),
      List.Chain' (· ≠ ·)
        (st.lastCaption :: (captionKeys (receiverRun debug st msgs).2).map some) ∧
      (receiverRun debug st msgs).1.lastCaption =
        lastOr ((captionKeys (receiverRun debug st msgs).2).map some)
          st.lastCaption := by
  intro msgs
  induction msgs with
  | nil => intro st; simp [receiverRun, captionKeys, lastOr]
  | cons m rest ih =>
    intro st
    cases m with
    | none => simpa only [receiverRun] using ih st
    | some p =>
      rcases receiverStep_caption debug st p with ⟨h1, h2⟩ | ⟨k, h1, h2, h3⟩
      · simp only [receiverRun]
        split
        · simp [h1, h2, lastOr]
        · obtain ⟨ih1, ih2⟩ := ih (receiverStep debug st p).st
          rw [h2] at ih1 ih2
          simp only [captionKeys_append, h1, List.nil_append]
          exact ⟨ih1, ih2⟩
      · simp only [receiverRun]
        split
        · refine ⟨?_, ?_⟩
          · rw [h1]
            exact List.chain'_pair.mpr h2
          · rw [h1, h3]
            rfl
        · obtain ⟨ih1, ih2⟩ := ih (receiverStep debug st p).st
          rw [h3] at ih1 ih2
          simp only [captionKeys_append, h1]
          constructor
          · rw [List.singleton_append, List.map_cons]
            exact List.chain'_cons.mpr ⟨h2, ih1⟩
          · rw [List.singleton_append, List.map_cons]
            show _ = lastOr (some k :: _) _
            rw [show ∀ (x : Option (String × Bool)) (l : List (Option (String × Bool))) (d : Option (String × Bool)), lastOr (x :: l) d = lastOr l x from fun _ _ _ => rfl]
            exact ih2

/-- In debug mode a single receiver step broadcasts nothing. -/
theorem receiverStep_debug_out (st : RecvState) (p : AsrPayload) :
    (receiverStep true st p).outMsgs = [] := by
  unfold receiverStep
  split <;> simp

/-- In debug mode the whole receiver run broadcasts nothing. -/
theorem receiverRun_debug_out :
    ∀ (msgs : List (Option AsrPayload)) (st : RecvState),
      (receiverRun true st msgs).2 = [] := by
  intro msgs
  induction msgs with
  | nil => intro st; simp [receiverRun]
  | cons m rest ih =>
    intro st
    cases m with
    | none => simpa only [receiverRun] using ih st
    | some p =>
      simp only [receiverRun]
      split
      · exact receiverStep_debug_out st p
      · simp [receiverStep_debug_out, ih]

/-- Every frame `graceful_stop`'s loop consumes arrived no later than the
deadline. -/
theorem gsLoop_consumed_within (deadline : ℚ) :
    ∀ (msgs : List (ℚ × GsFrame)) (t : ℚ),
      ∀ e ∈ msgs.take (gsLoop deadline t msgs).1, e.1 ≤ deadline := by
  intro msgs
  induction msgs with
  | nil => intro t e he; simp at he
  | cons hd rest ih =>
    intro t e he
    obtain ⟨a, f⟩ := hd
    by_cases h1 : deadline - t ≤ 0
    · simp [gsLoop, h1] at he
    · by_cases h2 : deadline < a
      · simp [gsLoop, h1, h2] at he
      · cases f with
        | recvErr => simp [gsLoop, h1, h2] at he
        | nonJson =>
          simp only [gsLoop, if_neg h1, if_neg h2, List.take_succ_cons,
            List.mem_cons] at he
          rcases he with he | he
          · rw [he]; exact le_of_not_lt h2
          · exact ih a e he
        | jsonMsg ty =>
          by_cases h3 : ty = some "ready_to_stop"
          · simp only [gsLoop, if_neg h1, if_neg h2, if_pos h3,
              List.take_succ_cons, List.take_zero, List.mem_singleton] at he
            rw [he]; exact le_of_not_lt h2
          · simp only [gsLoop, if_neg h1, if_neg h2, if_neg h3,
              List.take_succ_cons, List.mem_cons] at he
            rcases he with he | he
            · rw [he]; exact le_of_not_lt h2
            · exact ih a e he

/-- On a trace whose frames all arrive strictly inside the window and
contain no receive error, `graceful_stop`'s loop returns `readyToStop`
exactly when some frame is a `ready_to_stop` payload, and then it stops
at the first such frame. -/
theorem gsLoop_char (deadline : ℚ) :
    ∀ (msgs : List (ℚ × GsFrame)) (t : ℚ), t < deadline →
      (∀ e ∈ msgs, e.1 < deadline ∧ e.2 ≠ GsFrame.recvErr) →
      (((gsLoop deadline t msgs).2 = GsReason.readyToStop) ↔
        ∃ e ∈ msgs, isReadyToStopFrame e.2 = true) ∧
      ((∃ e ∈ msgs, isReadyToStopFrame e.2 = true) →
        (gsLoop deadline t msgs).1 =
          (msgs.takeWhile (fun e => !isReadyToStopFrame e.2)).length + 1) := by
  intro msgs
  induction msgs with
  | nil =>
    intro t _ _
    constructor
    · simp [gsLoop]
    · rintro ⟨e, he, _⟩; simp at he
  | cons hd rest ih =>
    intro t ht hin
    obtain ⟨a, f⟩ := hd
    have ha : a < deadline := (hin (a, f) (by simp)).1
    have hf : f ≠ GsFrame.recvErr := (hin (a, f) (by simp)).2
    have h1 : ¬ deadline - t ≤ 0 := by linarith
    have h2 : ¬ deadline < a := by linarith
    have hrest : ∀ e ∈ rest, e.1 < deadline ∧ e.2 ≠ GsFrame.recvErr :=
      fun e he => hin e (by simp [he])
    cases f with
    | recvErr => exact absurd rfl hf
    | nonJson =>
      obtain ⟨ih1, ih2⟩ := ih a ha hrest
      constructor
      · simp only [gsLoop, if_neg h1, if_neg h2]
        rw [ih1]
        simp [isReadyToStopFrame]
      · intro hex
        have hex' : ∃ e ∈ rest, isReadyToStopFrame e.2 = true := by
          rcases hex with ⟨e, he, hrts⟩
          rcases List.mem_cons.mp he with he | he
          · rw [he] at hrts; simp [isReadyToStopFrame] at hrts
          · exact ⟨e, he, hrts⟩
        simp only [gsLoop, if_neg h1, if_neg h2]
        rw [List.takeWhile_cons_of_pos (by simp [isReadyToStopFrame])]
        simp [ih2 hex']
    | jsonMsg ty =>
      by_cases h3 : ty = some "ready_to_stop"
      · constructor
        · simp only [gsLoop, if_neg h1, if_neg h2, if_pos h3]
          constructor
          · intro _
            exact ⟨(a, .jsonMsg ty), by simp, by simp [isReadyToStopFrame, h3]⟩
          · intro _; trivial
        · intro _
          simp only [gsLoop, if_neg h1, if_neg h2, if_pos h3]
          rw [List.takeWhile_cons_of_neg (by simp [isReadyToStopFrame, h3])]
          rfl
      · obtain ⟨ih1, ih2⟩ := ih a ha hrest
        constructor
        · simp only [gsLoop, if_neg h1, if_neg h2, if_neg h3]
          rw [ih1]
          constructor
          · rintro ⟨e, he, hrts⟩; exact ⟨e, by simp [he], hrts⟩
          · rintro ⟨e, he, hrts⟩
            rcases List.mem_cons.mp he with he | he
            · rw [he] at hrts; simp [isReadyToStopFrame, h3] at hrts
            · exact ⟨e, he, hrts⟩
        · intro hex
          have hex' : ∃ e ∈ rest, isReadyToStopFrame e.2 = true := by
            rcases hex with ⟨e, he, hrts⟩
            rcases List.mem_cons.mp he with he | he
            · rw [he] at hrts; simp [isReadyToStopFrame, h3] at hrts
            · exact ⟨e, he, hrts⟩
          simp only [gsLoop, if_neg h1, if_neg h2, if_neg h3]
          rw [List.takeWhile_cons_of_pos (by simp [isReadyToStopFrame, h3])]
          simp [ih2 hex']

/-- Closed form of the ingest spawn backoff after `n` consecutive
failures, given a positive cap. -/
theorem backoffAfterFails_closed (cfg : RelayConfig)
    (hM : 1 ≤ cfg.max_backoff_seconds) (n : Nat) :
    backoffAfterFails cfg n = min (2 ^ n) cfg.max_backoff_seconds := by
  induction n with
  | zero =>
    simp only [backoffAfterFails, ffmpegSpawnOkBackoff, pow_zero]
    omega
  | succ n ihn =>
    simp only [backoffAfterFails, ffmpegSpawnFailStep, ihn, pow_succ]
    generalize 2 ^ n = a
    omega

/-! ### Claim theorems -/

/-- Claim C1 is false as stated: when the ASR session ends with a generic
exception (neither `NoAudioTimeout` nor a connection refused/closed
error), the handler at lines 572-576 leaves both the pending chunk and
the buffered audio in place, so the buffer is not drained and the next
session's first send is the stale pending chunk. -/
theorem C1_counterexample :
    (asrHandleEnd defaultConfig SessionEnd.otherExc
      ⟨some [1], [[2]], 1, false⟩).1.queue = [[2]] ∧
    (asrHandleEnd defaultConfig SessionEnd.otherExc
      ⟨some [1], [[2]], 1, false⟩).1.queue ≠ [] ∧
    (asrHandleEnd defaultConfig SessionEnd.otherExc
      ⟨some [1], [[2]], 1, false⟩).1.pendingChunk = some [1] ∧
    nextSessionFirstChunk
      (asrHandleEnd defaultConfig SessionEnd.otherExc
        ⟨some [1], [[2]], 1, false⟩).1 = some [1] := by
  decide

/-- Claim C1 (amended): after a NO_AUDIO (idle timeout) termination or a
connection refused/closed-by-peer termination of the ASR session, the
audio buffer is fully drained and the pending chunk discarded before the
next session's first send; a generic exception, or a session that ends
without an exception, retains both. -/
theorem C1_drain_amended (cfg : RelayConfig) (e : SessionEnd)
    (s : AsrLoopState)
    (h : e = SessionEnd.noAudio ∨ e = SessionEnd.connClosed) :
    (asrHandleEnd cfg e s).1.queue = [] ∧
    (asrHandleEnd cfg e s).1.pendingChunk = none := by
  rcases h with h | h <;> subst h <;> exact ⟨rfl, rfl⟩

/-- Witness for C1 (amended) at a concrete NO_AUDIO termination. -/
theorem C1_drain_amended_witness :
    (SessionEnd.noAudio = SessionEnd.noAudio ∨
      SessionEnd.noAudio = SessionEnd.connClosed) ∧
    ((asrHandleEnd defaultConfig SessionEnd.noAudio
        ⟨some [0], [[1]], 3, false⟩).1.queue = [] ∧
      (asrHandleEnd defaultConfig SessionEnd.noAudio
        ⟨some [0], [[1]], 3, false⟩).1.pendingChunk = none) :=
  ⟨Or.inl rfl, C1_drain_amended defaultConfig SessionEnd.noAudio
    ⟨some [0], [[1]], 3, false⟩ (Or.inl rfl)⟩

/-- Claim C3: in the enumeration of every shared-state mutation of the
source, only `configReceived` (the ASR session's handling of the first
message, lines 393-395) can change the format controller's token, and it
sets PCM when `useAudioWorklet` is true and WEBM when it is false. -/
theorem C3_config_sets_format (v : Option JsonVal) (s : RelayState)
    (op : RelayOp)
    (hchange : (applyOp s op).fmtCtrl.format ≠ s.fmtCtrl.format) :
    (∃ w, op = RelayOp.configReceived w) ∧
    (applyOp s (RelayOp.configReceived v)).fmtCtrl.format = configFormat v ∧
    configFormat (some (JsonVal.bool true)) = "pcm" ∧
    configFormat (some (JsonVal.bool false)) = "webm" := by
  refine ⟨?_, rfl, rfl, rfl⟩
  cases op <;> first | exact ⟨_, rfl⟩ | exact absurd rfl hchange

/-- Witness for C3 at the concrete operation that switches the token from
the initial WEBM to PCM. -/
theorem C3_config_sets_format_witness :
    (applyOp relayInit
        (RelayOp.configReceived (some (JsonVal.bool true)))).fmtCtrl.format ≠
      relayInit.fmtCtrl.format ∧
    ((∃ w, RelayOp.configReceived (some (JsonVal.bool true)) =
        RelayOp.configReceived w) ∧
      (applyOp relayInit
          (RelayOp.configReceived (some (JsonVal.bool true)))).fmtCtrl.format =
        configFormat (some (JsonVal.bool true)) ∧
      configFormat (some (JsonVal.bool true)) = "pcm" ∧
      configFormat (some (JsonVal.bool false)) = "webm") :=
  ⟨by decide, C3_config_sets_format (some (JsonVal.bool true)) relayInit
    (RelayOp.configReceived (some (JsonVal.bool true))) (by decide)⟩

/-- Claim C6 is false in its logging clause: the warning fires when the
drop counter is congruent to 1 modulo 50 (drops 1, 51, 101, ...), so the
50th drop logs nothing while the 1st does. -/
theorem C6_counterexample :
    (AudioQueue.put 1 ⟨[[0]], 49⟩ [1]).1.dropped = 50 ∧
    (AudioQueue.put 1 ⟨[[0]], 49⟩ [1]).2 = false ∧
    (AudioQueue.put 1 ⟨[[0]], 0⟩ [1]).1.dropped = 1 ∧
    (AudioQueue.put 1 ⟨[[0]], 0⟩ [1]).2 = true := by
  decide

/-- Claim C6 (amended): `put` never suspends or raises (it is a total
function); on a full queue the newest chunk is discarded, the buffered
chunks are unchanged, the drop counter is incremented by one, and a
warning is logged exactly when the new counter is congruent to 1 modulo
50 (the 1st drop and every 50th thereafter); below capacity the chunk is
appended; the queue length never exceeds the capacity, whose default is
100 chunks. -/
theorem C6_put_amended (cap : Nat) (s : AudioQueueSt) (c : Chunk)
    (hpos : 0 < cap) (hle : s.queue.length ≤ cap) :
    (AudioQueue.put cap s c).1.queue.length ≤ cap ∧
    (s.queue.length = cap →
      (AudioQueue.put cap s c).1.queue = s.queue ∧
      (AudioQueue.put cap s c).1.dropped = s.dropped + 1 ∧
      ((AudioQueue.put cap s c).2 = true ↔ (s.dropped + 1) % 50 = 1)) ∧
    (s.queue.length < cap →
      (AudioQueue.put cap s c).1.queue = s.queue ++ [c] ∧
      (AudioQueue.put cap s c).1.dropped = s.dropped ∧
      (AudioQueue.put cap s c).2 = false) ∧
    defaultMaxChunks = 100 := by
  by_cases h : 0 < cap ∧ cap ≤ s.queue.length
  · refine ⟨?_, ?_, ?_, rfl⟩
    · simp only [AudioQueue.put, if_pos h]
      exact hle
    · intro _
      refine ⟨by simp [AudioQueue.put, h], by simp [AudioQueue.put, h], ?_⟩
      simp [AudioQueue.put, h]
    · intro hlt; omega
  · have hlt : s.queue.length < cap := by omega
    refine ⟨?_, ?_, ?_, rfl⟩
    · simp only [AudioQueue.put, if_neg h]
      simp only [List.length_append, List.length_singleton]
      omega
    · intro heq; omega
    · intro _
      exact ⟨by simp [AudioQueue.put, h], by simp [AudioQueue.put, h],
        by simp [AudioQueue.put, h]⟩

/-- Witness for C6 (amended) at a concrete below-capacity put. -/
theorem C6_put_amended_witness :
    (0 < 1 ∧ ([] : List Chunk).length ≤ 1) ∧
    ((AudioQueue.put 1 ⟨[], 0⟩ [0]).1.queue.length ≤ 1 ∧
      (([] : List Chunk).length = 1 →
        (AudioQueue.put 1 ⟨[], 0⟩ [0]).1.queue = [] ∧
        (AudioQueue.put 1 ⟨[], 0⟩ [0]).1.dropped = 0 + 1 ∧
        ((AudioQueue.put 1 ⟨[], 0⟩ [0]).2 = true ↔ (0 + 1) % 50 = 1)) ∧
      (([] : List Chunk).length < 1 →
        (AudioQueue.put 1 ⟨[], 0⟩ [0]).1.queue = [] ++ [[0]] ∧
        (AudioQueue.put 1 ⟨[], 0⟩ [0]).1.dropped = 0 ∧
        (AudioQueue.put 1 ⟨[], 0⟩ [0]).2 = false) ∧
      defaultMaxChunks = 100) :=
  ⟨⟨by decide, by decide⟩,
    C6_put_amended 1 ⟨[], 0⟩ [0] (by decide) (by decide)⟩

/-- Claim C7: for format PCM, `build_ffmpeg_cmd` returns a raw s16le
mono command at the configured sample rate with read size
`sample_rate * 2 * chunk_ms / 1000`; for format WEBM, an Opus-in-WebM
mono command at 48000 Hz with the configured bitrate and read size
8192. -/
theorem C7_ffmpeg_cmd (cfg : RelayConfig) :
    (build_ffmpeg_cmd cfg "pcm").2 = cfg.sample_rate * 2 * cfg.chunk_ms / 1000 ∧
    (∃ u v, (build_ffmpeg_cmd cfg "pcm").1 = u ++ ["-f", "s16le"] ++ v) ∧
    (∃ u v, (build_ffmpeg_cmd cfg "pcm").1 = u ++ ["-ac", "1"] ++ v) ∧
    (∃ u v, (build_ffmpeg_cmd cfg "pcm").1 =
      u ++ ["-ar", toString cfg.sample_rate] ++ v) ∧
    (build_ffmpeg_cmd cfg "webm").2 = 8192 ∧
    (∃ u v, (build_ffmpeg_cmd cfg "webm").1 = u ++ ["-c:a", "libopus"] ++ v) ∧
    (∃ u v, (build_ffmpeg_cmd cfg "webm").1 = u ++ ["-ar", "48000"] ++ v) ∧
    (∃ u v, (build_ffmpeg_cmd cfg "webm").1 =
      u ++ ["-b:a", cfg.asr_audio_bitrate] ++ v) ∧
    (∃ u v, (build_ffmpeg_cmd cfg "webm").1 = u ++ ["-f", "webm"] ++ v) ∧
    (∃ u v, (build_ffmpeg_cmd cfg "webm").1 = u ++ ["-ac", "1"] ++ v) := by
  have h48 : toString (48000 : Nat) = "48000" := rfl
  have hp : build_ffmpeg_cmd cfg "pcm" =
      (["ffmpeg", "-hide_banner", "-loglevel", "error", "-i", cfg.rtmp_url,
        "-vn", "-ac", "1", "-ar", toString cfg.sample_rate, "-f", "s16le",
        "pipe:1"], cfg.sample_rate * 2 * cfg.chunk_ms / 1000) := by
    simp [build_ffmpeg_cmd]
  have hw : build_ffmpeg_cmd cfg "webm" =
      (["ffmpeg", "-hide_banner", "-loglevel", "error", "-i", cfg.rtmp_url,
        "-vn", "-ac", "1", "-ar", "48000", "-c:a", "libopus", "-b:a",
        cfg.asr_audio_bitrate, "-f", "webm", "-"], 8192) := by
    simp [build_ffmpeg_cmd, h48]
  rw [hp, hw]
  refine ⟨rfl,
    ⟨["ffmpeg", "-hide_banner", "-loglevel", "error", "-i", cfg.rtmp_url,
      "-vn", "-ac", "1", "-ar", toString cfg.sample_rate], ["pipe:1"], rfl⟩,
    ⟨["ffmpeg", "-hide_banner", "-loglevel", "error", "-i", cfg.rtmp_url,
      "-vn"], ["-ar", toString cfg.sample_rate, "-f", "s16le", "pipe:1"], rfl⟩,
    ⟨["ffmpeg", "-hide_banner", "-loglevel", "error", "-i", cfg.rtmp_url,
      "-vn", "-ac", "1"], ["-f", "s16le", "pipe:1"], rfl⟩,
    rfl,
    ⟨["ffmpeg", "-hide_banner", "-loglevel", "error", "-i", cfg.rtmp_url,
      "-vn", "-ac", "1", "-ar", "48000"],
      ["-b:a", cfg.asr_audio_bitrate, "-f", "webm", "-"], rfl⟩,
    ⟨["ffmpeg", "-hide_banner", "-loglevel", "error", "-i", cfg.rtmp_url,
      "-vn", "-ac", "1"],
      ["-c:a", "libopus", "-b:a", cfg.asr_audio_bitrate, "-f", "webm", "-"],
      rfl⟩,
    ⟨["ffmpeg", "-hide_banner", "-loglevel", "error", "-i", cfg.rtmp_url,
      "-vn", "-ac", "1", "-ar", "48000", "-c:a", "libopus"],
      ["-f", "webm", "-"], rfl⟩,
    ⟨["ffmpeg", "-hide_banner", "-loglevel", "error", "-i", cfg.rtmp_url,
      "-vn", "-ac", "1", "-ar", "48000", "-c:a", "libopus", "-b:a",
      cfg.asr_audio_bitrate], ["-"], rfl⟩,
    ⟨["ffmpeg", "-hide_banner", "-loglevel", "error", "-i", cfg.rtmp_url,
      "-vn"],
      ["-ar", "48000", "-c:a", "libopus", "-b:a", cfg.asr_audio_bitrate,
       "-f", "webm", "-"], rfl⟩⟩

/-- Claim C8: on every spawn failure the ingest supervisor broadcasts
`status=error`, sleeps `min(backoff, max_backoff_seconds)` and doubles
the backoff capped at `max_backoff_seconds`; a successful spawn resets
the backoff to 1; hence the sleep before the (n+1)-th consecutive retry
is `min(2^n, max_backoff_seconds)` — the capped sequence 1, 2, 4, ... -/
theorem C8_backoff (cfg : RelayConfig) (n b : Nat)
    (hM : 1 ≤ cfg.max_backoff_seconds) :
    (ffmpegSpawnFailStep cfg b).statusState = "error" ∧
    (ffmpegSpawnFailStep cfg b).sleepSeconds = min b cfg.max_backoff_seconds ∧
    (ffmpegSpawnFailStep cfg b).newBackoff =
      min (b * 2) cfg.max_backoff_seconds ∧
    ffmpegSpawnOkBackoff = 1 ∧
    backoffAfterFails cfg n = min (2 ^ n) cfg.max_backoff_seconds ∧
    (ffmpegSpawnFailStep cfg (backoffAfterFails cfg n)).sleepSeconds =
      min (2 ^ n) cfg.max_backoff_seconds := by
  refine ⟨rfl, rfl, rfl, rfl, backoffAfterFails_closed cfg hM n, ?_⟩
  show min (backoffAfterFails cfg n) cfg.max_backoff_seconds = _
  rw [backoffAfterFails_closed cfg hM n]
  generalize 2 ^ n = a
  omega

/-- Witness for C8 at the default configuration after three consecutive
failures. -/
theorem C8_backoff_witness :
    1 ≤ defaultConfig.max_backoff_seconds ∧
    ((ffmpegSpawnFailStep defaultConfig 4).statusState = "error" ∧
      (ffmpegSpawnFailStep defaultConfig 4).sleepSeconds =
        min 4 defaultConfig.max_backoff_seconds ∧
      (ffmpegSpawnFailStep defaultConfig 4).newBackoff =
        min (4 * 2) defaultConfig.max_backoff_seconds ∧
      ffmpegSpawnOkBackoff = 1 ∧
      backoffAfterFails defaultConfig 3 =
        min (2 ^ 3) defaultConfig.max_backoff_seconds ∧
      (ffmpegSpawnFailStep defaultConfig
          (backoffAfterFails defaultConfig 3)).sleepSeconds =
        min (2 ^ 3) defaultConfig.max_backoff_seconds) :=
  ⟨by decide, C8_backoff defaultConfig 3 4 (by decide)⟩

/-- Claim C10: an absent `useAudioWorklet` field, or any falsy value
(null, false, 0, the empty string), selects WEBM; any truthy value
selects PCM; and once the first message is parsed the config handling is
total — it never treats a payload as a protocol error. -/
theorem C10_falsy_webm (v : JsonVal) (hv : pyTruthy v = true) :
    configFormat none = "webm" ∧
    configFormat (some JsonVal.null) = "webm" ∧
    configFormat (some (JsonVal.bool false)) = "webm" ∧
    configFormat (some (JsonVal.num 0)) = "webm" ∧
    configFormat (some (JsonVal.str "")) = "webm" ∧
    configFormat (some v) = "pcm" ∧
    (∀ w : Option JsonVal,
      asrProcessConfig (ConfigMsgResult.ok w) = Except.ok (configFormat w)) := by
  refine ⟨rfl, rfl, rfl, by decide, rfl, ?_, fun w => rfl⟩
  simp [configFormat, hv]

/-- Witness for C10 at the concrete truthy value `true`. -/
theorem C10_falsy_webm_witness :
    pyTruthy (JsonVal.bool true) = true ∧
    (configFormat none = "webm" ∧
      configFormat (some JsonVal.null) = "webm" ∧
      configFormat (some (JsonVal.bool false)) = "webm" ∧
      configFormat (some (JsonVal.num 0)) = "webm" ∧
      configFormat (some (JsonVal.str "")) = "webm" ∧
      configFormat (some (JsonVal.bool true)) = "pcm" ∧
      (∀ w : Option JsonVal,
        asrProcessConfig (ConfigMsgResult.ok w) = Except.ok (configFormat w))) :=
  ⟨rfl, C10_falsy_webm (JsonVal.bool true) rfl⟩

/-- Claim C2: the graceful-stop handshake runs exactly when the socket is
open, STOP is set or the stream started, and no ready_to_stop was seen —
and at most once per session; it sends exactly one empty binary frame;
every frame its loop consumes arrives within the 5-second window; and on
an error-free trace arriving inside the window it returns at the first
`ready_to_stop` frame (discarding every earlier frame) or, absent one, at
the deadline. -/
theorem C2_graceful_stop (wsOpen stopSet streamStarted readySeen sendOk : Bool)
    (start : ℚ) (msgs : List (ℚ × GsFrame))
    (hin : ∀ e ∈ msgs, e.1 < start + 5 ∧ e.2 ≠ GsFrame.recvErr) :
    sessionFinallyAttempts wsOpen stopSet streamStarted readySeen ≤ 1 ∧
    (sessionFinallyAttempts wsOpen stopSet streamStarted readySeen = 1 ↔
      (wsOpen = true ∧ (stopSet = true ∨ streamStarted = true) ∧
        readySeen = false)) ∧
    (graceful_stop sendOk start msgs).emptySends = 1 ∧
    (∀ e ∈ msgs.take (graceful_stop true start msgs).consumed,
      e.1 ≤ start + 5) ∧
    ((graceful_stop true start msgs).reason = GsReason.readyToStop ↔
      ∃ e ∈ msgs, isReadyToStopFrame e.2 = true) ∧
    ((∃ e ∈ msgs, isReadyToStopFrame e.2 = true) →
      (graceful_stop true start msgs).consumed =
        (msgs.takeWhile (fun e => !isReadyToStopFrame e.2)).length + 1) := by
  have hstart : start < start + 5 := by linarith
  obtain ⟨hc1, hc2⟩ := gsLoop_char (start + 5) msgs start hstart hin
  refine ⟨?_, ?_, ?_, ?_, hc1, hc2⟩
  · unfold sessionFinallyAttempts
    split <;> simp
  · cases wsOpen <;> cases stopSet <;> cases streamStarted <;>
      cases readySeen <;>
      simp [sessionFinallyAttempts, gracefulStopCondition]
  · cases sendOk <;> simp [graceful_stop]
  · exact fun e he => gsLoop_consumed_within (start + 5) msgs start e he

/-- Witness for C2 at a concrete session exit (socket open, stream
started, no ready_to_stop seen) and a one-frame trace whose frame is the
`ready_to_stop` acknowledgement. -/
theorem C2_graceful_stop_witness :
    (∀ e ∈ [((1 : ℚ), GsFrame.jsonMsg (some "ready_to_stop"))],
      e.1 < (0 : ℚ) + 5 ∧ e.2 ≠ GsFrame.recvErr) ∧
    (sessionFinallyAttempts true false true false ≤ 1 ∧
      (sessionFinallyAttempts true false true false = 1 ↔
        (true = true ∧ (false = true ∨ true = true) ∧ false = false)) ∧
      (graceful_stop true 0
        [((1 : ℚ), GsFrame.jsonMsg (some "ready_to_stop"))]).emptySends = 1 ∧
      (∀ e ∈ ([((1 : ℚ), GsFrame.jsonMsg (some "ready_to_stop"))]).take
          (graceful_stop true 0
            [((1 : ℚ), GsFrame.jsonMsg (some "ready_to_stop"))]).consumed,
        e.1 ≤ (0 : ℚ) + 5) ∧
      ((graceful_stop true 0
          [((1 : ℚ), GsFrame.jsonMsg (some "ready_to_stop"))]).reason =
          GsReason.readyToStop ↔
        ∃ e ∈ [((1 : ℚ), GsFrame.jsonMsg (some "ready_to_stop"))],
          isReadyToStopFrame e.2 = true) ∧
      ((∃ e ∈ [((1 : ℚ), GsFrame.jsonMsg (some "ready_to_stop"))],
          isReadyToStopFrame e.2 = true) →
        (graceful_stop true 0
          [((1 : ℚ), GsFrame.jsonMsg (some "ready_to_stop"))]).consumed =
          (([((1 : ℚ), GsFrame.jsonMsg (some "ready_to_stop"))]).takeWhile
            (fun e => !isReadyToStopFrame e.2)).length + 1)) :=
  ⟨by
      intro e he
      rw [List.mem_singleton] at he
      subst he
      exact ⟨by norm_num, by decide⟩,
    C2_graceful_stop true false true false true 0
      [((1 : ℚ), GsFrame.jsonMsg (some "ready_to_stop"))]
      (by
        intro e he
        rw [List.mem_singleton] at he
        subst he
        exact ⟨by norm_num, by decide⟩)⟩

/-- Claim C4 is false as stated: a payload that already carries
`type="caption"` is forwarded verbatim with no de-duplication
(lines 468-469), so two identical inbound caption payloads yield two
consecutive caption broadcasts with the same `(text, partial)` pair. -/
theorem C4_counterexample :
    (((receiverRun false initRecvState
        [some ⟨some "caption", none, none, none, none, some "a", some false⟩,
         some ⟨some "caption", none, none, none, none, some "a", some false⟩]).2.filter
        Broadcast.isCaptionType).map Broadcast.captionTextPart =
      [(some "a", some false), (some "a", some false)]) ∧
    ¬ List.Chain' (· ≠ ·)
      (((receiverRun false initRecvState
        [some ⟨some "caption", none, none, none, none, some "a", some false⟩,
         some ⟨some "caption", none, none, none, none, some "a", some false⟩]).2.filter
        Broadcast.isCaptionType).map Broadcast.captionTextPart) := by
  have hkeys : (((receiverRun false initRecvState
      [some ⟨some "caption", none, none, none, none, some "a", some false⟩,
       some ⟨some "caption", none, none, none, none, some "a", some false⟩]).2.filter
      Broadcast.isCaptionType).map Broadcast.captionTextPart) =
      [(some "a", some false), (some "a", some false)] := rfl
  refine ⟨hkeys, ?_⟩
  rw [hkeys]
  intro hch
  exact (List.chain'_pair.mp hch) rfl

/-- Claim C4 (amended): within a session, among the broadcasts the
receiver synthesizes from field extraction (`type=caption` built from
`lines` and `buffer_transcription`), consecutive ones always differ in
their `(text, partial)` key; payloads already carrying `type="caption"`
are forwarded verbatim without de-duplication. -/
theorem C4_caption_dedup_amended (debug : Bool)
    (msgs : List (Option AsrPayload)) :
    List.Chain' (· ≠ ·)
      (captionKeys (receiverRun debug initRecvState msgs).2) := by
  have h := (receiverRun_chain debug msgs initRecvState).1
  have h2 := h.tail
  simp only [List.tail_cons] at h2
  rw [List.chain'_map] at h2
  exact h2.imp fun a b hab h => hab (congrArg some h)

/-- Claim C5 is false as stated: with `--debug` the receiver logs a
`ready_to_stop` payload instead of broadcasting it (lines 457-462), so
nothing at all is broadcast, while without `--debug` the same payload is
broadcast verbatim. -/
theorem C5_counterexample :
    (receiverRun true initRecvState
      [some ⟨some "ready_to_stop", none, none, none, none, none, none⟩]).2 =
      [] ∧
    (receiverRun false initRecvState
      [some ⟨some "ready_to_stop", none, none, none, none, none, none⟩]).2 =
      [Broadcast.asrPayload
        ⟨some "ready_to_stop", none, none, none, none, none, none⟩] := by
  decide

/-- Claim C5 (amended): with `--debug` no ASR payload is broadcast to
subscribers — `ready_to_stop` included, which is logged instead; a
`ready_to_stop` payload still sets the seen flag and terminates the
receiver. -/
theorem C5_debug_amended (st : RecvState) (msgs : List (Option AsrPayload))
    (p : AsrPayload) (hp : p.type? = some "ready_to_stop") :
    (receiverRun true st msgs).2 = [] ∧
    (receiverStep true st p).st.readySeen = true ∧
    (receiverStep true st p).halt = true ∧
    (receiverStep true st p).outMsgs = [] := by
  refine ⟨receiverRun_debug_out msgs st, ?_, ?_, receiverStep_debug_out st p⟩
  · simp [receiverStep, hp]
  · simp [receiverStep, hp]

/-- Witness for C5 (amended) at a concrete `ready_to_stop` payload. -/
theorem C5_debug_amended_witness :
    (AsrPayload.mk (some "ready_to_stop") none none none none none
        none).type? = some "ready_to_stop" ∧
    ((receiverRun true initRecvState []).2 = [] ∧
      (receiverStep true initRecvState
        ⟨some "ready_to_stop", none, none, none, none, none,
          none⟩).st.readySeen = true ∧
      (receiverStep true initRecvState
        ⟨some "ready_to_stop", none, none, none, none, none, none⟩).halt =
        true ∧
      (receiverStep true initRecvState
        ⟨some "ready_to_stop", none, none, none, none, none, none⟩).outMsgs =
        []) :=
  ⟨rfl, C5_debug_amended initRecvState []
    ⟨some "ready_to_stop", none, none, none, none, none, none⟩ rfl⟩

/-- Claim C9: when the read loop sees the format controller's current
token differ from the token it spawned with (and STOP and
RESTART_INGEST are unset, which are checked first), the iteration ends
in the format-change outcome — the `finally` clause kills the live
process — and the next outer-loop iteration respawns with the new
token's command; after a switch to PCM the read size is
`sample_rate * 2 * chunk_ms / 1000`. -/
theorem C9_format_switch (cfg : RelayConfig) (ctrl : FormatCtrl)
    (st : IngestState) (ev : ReadEvent)
    (hstop : st.stop = false) (hres : st.restart = false)
    (hfmt : FormatController.current ctrl ≠ st.currentFmt)
    (hev : ctrl.event = true) :
    (ffmpegInnerStep cfg (FormatController.current ctrl) st ev).2 =
      InnerOutcome.formatChange ∧
    ffmpegLoopExitKills true = true ∧
    ffmpegRespawn cfg ctrl =
      some (build_ffmpeg_cmd cfg (FormatController.current ctrl)) ∧
    (build_ffmpeg_cmd cfg "pcm").2 =
      cfg.sample_rate * 2 * cfg.chunk_ms / 1000 := by
  refine ⟨?_, rfl, ?_, ?_⟩
  · simp [ffmpegInnerStep, hstop, hres, hfmt]
  · simp [ffmpegRespawn, wait_for_format, hev, FormatController.current]
  · simp [build_ffmpeg_cmd]

/-- Witness for C9 at a concrete WEBM-to-PCM switch. -/
theorem C9_format_switch_witness :
    ((⟨"webm", 0, false, false, false, false, ⟨[], 0⟩⟩ : IngestState).stop =
        false ∧
      (⟨"webm", 0, false, false, false, false,
          ⟨[], 0⟩⟩ : IngestState).restart = false ∧
      FormatController.current ⟨"pcm", true⟩ ≠
        (⟨"webm", 0, false, false, false, false,
          ⟨[], 0⟩⟩ : IngestState).currentFmt ∧
      (⟨"pcm", true⟩ : FormatCtrl).event = true) ∧
    ((ffmpegInnerStep defaultConfig (FormatController.current ⟨"pcm", true⟩)
        ⟨"webm", 0, false, false, false, false, ⟨[], 0⟩⟩ ReadEvent.eof).2 =
      InnerOutcome.formatChange ∧
    ffmpegLoopExitKills true = true ∧
    ffmpegRespawn defaultConfig ⟨"pcm", true⟩ =
      some (build_ffmpeg_cmd defaultConfig
        (FormatController.current ⟨"pcm", true⟩)) ∧
    (build_ffmpeg_cmd defaultConfig "pcm").2 =
      defaultConfig.sample_rate * 2 * defaultConfig.chunk_ms / 1000) :=
  ⟨⟨rfl, rfl, by decide, rfl⟩,
    C9_format_switch defaultConfig ⟨"pcm", true⟩
      ⟨"webm", 0, false, false, false, false, ⟨[], 0⟩⟩ ReadEvent.eof
      rfl rfl (by decide) rfl⟩

end LiveCaption
